import Mathlib

/-!
Shallow embedding of the `manor` typed document-store access layer
(crates `manor_common` and `manor_macros`), covering the typed collection,
the result cursor, the lazy reference (`Link`), the global client cell,
and the wire shape produced by the `#[schema]` generator.

Asynchronous store calls are embedded by passing their outcomes (or the
store contents) explicitly; machine-level BSON values are abstracted to a
type parameter together with the fallible parse function the source uses.
-/

namespace Manor

/-- Error taxonomy, from `manor_common/src/error.rs` (`enum Error`).
Payloads of external error types are abstracted to `String`. -/
inductive Error where
  | Deserialization (msg : String)
  | Serialization (msg : String)
  | InvalidUri (uri : String) (msg : String)
  | ClientFailure (msg : String)
  | MongoError (msg : String)
  | NotFound
  | UnresolvedLink (collection : String) (id : String)
  | WriteFailure (msg : String)
deriving DecidableEq

/-- A Manor client: the underlying MongoDB connection (abstracted to a
numeric handle) plus a single database name; `manor_common/src/client.rs`,
`struct Client`. Immutable after construction, cloneable. -/
structure Client where
  conn : Nat
  database : String
deriving DecidableEq

/-- A typed collection wrapper: the underlying collection handle (its name)
plus the owning `Client`; `manor_common/src/collection.rs`,
`struct Collection<M>`. -/
structure Collection where
  name : String
  client : Client
deriving DecidableEq

variable {φ ι β : Type}

/-- A record produced by the `#[schema]` generator: the identity field,
the remaining declared fields (abstracted to one value of type `φ`), and
the hidden `_collection` back-reference, which is `#[serde(skip)]`;
`manor_macros/src/schema.rs`, `generate_schema`. -/
structure Rec (φ ι : Type) where
  id : ι
  fields : φ
  «_collection» : Option Collection
deriving DecidableEq

/-- Generated `Model::own_collection`: returns the hidden back-reference
(`manor_macros/src/schema.rs`, the `own_collection` impl). -/
def Rec.own_collection (r : Rec φ ι) : Option Collection :=
  r._collection

/-- Generated `Model::attach_collection`: sets the hidden back-reference
(`manor_macros/src/schema.rs`, the `attach_collection` impl). -/
def Rec.attach_collection (r : Rec φ ι) (c : Collection) : Rec φ ι :=
  { r with _collection := some c }

/-- The stored contents of one MongoDB collection: the serialized documents,
each an `_id` paired with the remaining fields. The `_collection` field is
`#[serde(skip)]` and hence never stored. -/
abbrev Store (φ ι : Type) := List (ι × φ)

/-- Store-side lookup of the first document whose `_id` matches, the
behaviour of MongoDB `find_one` on the filter `doc! {"_id": id}`. -/
def storeFindById [DecidableEq ι] : Store φ ι → ι → Option φ
  | [], _ => none
  | p :: rest, i => if p.1 = i then some p.2 else storeFindById rest i

/-- Store-side deletion of at most one document whose `_id` matches,
returning the new contents and the reported `deleted_count`; the behaviour
of MongoDB `delete_one` on the filter `doc! {"_id": id}`. -/
def storeDeleteOneById [DecidableEq ι] : Store φ ι → ι → Store φ ι × Nat
  | [], _ => ([], 0)
  | p :: rest, i =>
    if p.1 = i then (rest, 1)
    else
      let res := storeDeleteOneById rest i
      (p :: res.1, res.2)

/-- Store-side insertion of a record's serialized document (the
`_collection` back-reference is skipped by serde and never stored). -/
def storeInsert (s : Store φ ι) (r : Rec φ ι) : Store φ ι :=
  s ++ [(r.id, r.fields)]

namespace Collection

/-- `Collection::find_one` on an identity filter
(`manor_common/src/collection.rs:371` via `find`, `Find::One` branch,
lines 328-333): the raw driver result is passed through unchanged — the
driver deserializes with `_collection = None` (serde skip default) and
the `Find::One` branch performs no `wrap`/`attach_collection`. -/
def find_one [DecidableEq ι] (s : Store φ ι) (i : ι) :
    Except Error (Option (Rec φ ι)) :=
  .ok ((storeFindById s i).map fun f => { id := i, fields := f, _collection := none })

/-- `Collection::get` (`manor_common/src/collection.rs:554`): sugar for
`find_one(doc! {"_id": id})`. -/
def get [DecidableEq ι] (s : Store φ ι) (i : ι) :
    Except Error (Option (Rec φ ι)) :=
  find_one s i

/-- `Collection::wrap` (`manor_common/src/collection.rs:208`): stamps the
back-reference onto a record without any I/O. -/
def wrap (c : Collection) (r : Rec φ ι) : Rec φ ι :=
  r.attach_collection c

/-- The `delete_one` count mapping (`manor_common/src/collection.rs:305`):
`Ok(1) => Ok(())`, `Ok(_) => Err(Error::NotFound)`, `Err(e) => Err(e)`,
applied to the outcome of `delete_with_options` (a reported
`deleted_count` or a store error). -/
def delete_one (deleted : Except Error Nat) : Except Error Unit :=
  match deleted with
  | .ok 1 => .ok ()
  | .ok _ => .error .NotFound
  | .error e => .error e

/-- `Collection::delete` (`manor_common/src/collection.rs:566`): sugar for
`delete_one(doc! {"_id": document.id()})`, here run against an explicit
store; returns the mapped result and the new store contents. -/
def deleteDoc [DecidableEq ι] (s : Store φ ι) (r : Rec φ ι) :
    Except Error Unit × Store φ ι :=
  let res := storeDeleteOneById s r.id
  (delete_one (.ok res.2), res.1)

end Collection

/-- A result cursor: the issuing collection plus the underlying
driver cursor, embedded as the list of items it will yield
(`manor_common/src/collection.rs`, `struct Cursor<M>`). -/
structure Cursor (φ ι : Type) where
  collection : Collection
  base : List (Except String (Rec φ ι))

/-- `Collection::cursor` (`manor_common/src/collection.rs:214`): wraps a
driver cursor, recording this collection as the issuer; `find_many`
returns exactly such a cursor. -/
def Collection.cursor (c : Collection) (base : List (Except String (Rec φ ι))) :
    Cursor φ ι :=
  { collection := c, base := base }

/-- `Stream::poll_next` for `Cursor` (`manor_common/src/collection.rs:149`):
on `Ready(Some(Ok(record)))` clone the record, attach the issuing
collection, and yield it; on `Ready(Some(Err(e)))` yield the converted
error (the stream itself continues); on `Ready(None)` terminate. -/
def Cursor.poll_next (c : Cursor φ ι) :
    Option (Except Error (Rec φ ι)) × Cursor φ ι :=
  match c.base with
  | [] => (none, c)
  | .ok record :: rest =>
    (some (.ok (record.attach_collection c.collection)),
     { collection := c.collection, base := rest })
  | .error e :: rest =>
    (some (.error (.MongoError e)),
     { collection := c.collection, base := rest })

/-- A lazy reference (`manor_common/src/types.rs`, `struct Link<M>`): the
denormalized collection name, the target identity, the optional cached
resolved value (serde-skipped) and the optional explicit client override
(serde-skipped). -/
structure Link (φ ι : Type) where
  collection : String
  id : ι
  resolved : Option (Rec φ ι)
  client : Option Client

/-- Outcome of one `collection().get(id)` call made by a `Link`: either a
store-level error, or the optional found document. -/
abbrev StoreOracle (φ ι : Type) := ι → Except String (Option (Rec φ ι))

namespace Link

/-- `Link::resolve` (`manor_common/src/types.rs:44`): if a value is cached
return it directly, otherwise perform one `get` against the store; on a
found document cache and return it, on no document fail with `NotFound`
(cache untouched), on a store error propagate it. The third component
counts the store queries performed (0 or 1). -/
def resolve (store : StoreOracle φ ι) (l : Link φ ι) :
    Except Error (Rec φ ι) × Link φ ι × Nat :=
  match l.resolved with
  | some val => (.ok val, l, 0)
  | none =>
    match store l.id with
    | .error e => (.error (.MongoError e), l, 1)
    | .ok (some found) => (.ok found, { l with resolved := some found }, 1)
    | .ok none => (.error .NotFound, l, 1)

/-- `Link::refresh` (`manor_common/src/types.rs:59`): unconditionally
perform one `get` against the store; on a found document overwrite the
cache and return it, on no document fail with `NotFound` leaving the
cache untouched, on a store error propagate it. The third component
counts the store queries performed. -/
def refresh (store : StoreOracle φ ι) (l : Link φ ι) :
    Except Error (Rec φ ι) × Link φ ι × Nat :=
  match store l.id with
  | .error e => (.error (.MongoError e), l, 1)
  | .ok (some found) => (.ok found, { l with resolved := some found }, 1)
  | .ok none => (.error .NotFound, l, 1)

/-- `Link::value` (`manor_common/src/types.rs:70`): a reference to the
cached value, if resolved. -/
def value (l : Link φ ι) : Option (Rec φ ι) :=
  l.resolved

/-- Total number of store queries performed by two consecutive `resolve`
calls on the same `Link` (threading the state of the first call into the
second), with no intervening `refresh`. -/
def resolveTwiceQueries (store : StoreOracle φ ι) (l : Link φ ι) : Nat :=
  let first := resolve store l
  let second := resolve store first.2.1
  first.2.2 + second.2.2

end Link

/-- Outcome of `Client::as_global` (`manor_common/src/client.rs:68`):
either the client was published, or `OnceCell::set(..).expect(..)`
panicked because a global client was already set. -/
inductive SetGlobalOutcome where
  | published
  | panicked
deriving DecidableEq

/-- `Client::as_global` (`manor_common/src/client.rs:68`): first-writer
wins on the `MANOR_CLIENT` once-cell; a second call panics via `expect`
and the cell keeps its original value. The cell state is passed
explicitly. -/
def Client.as_global (c : Client) (cell : Option Client) :
    SetGlobalOutcome × Option Client :=
  match cell with
  | none => (.published, some c)
  | some old => (.panicked, some old)

/-- `Client::global` (`manor_common/src/client.rs:75`): returns a clone of
the once-cell contents, if initialized. -/
def Client.global (cell : Option Client) : Option Client :=
  cell

namespace Collection

/-- `Collection::parse_id` (`manor_common/src/collection.rs:172`):
`from_bson::<M::Id>` on a raw inserted-id value, `Some` on success and
`None` on failure; the BSON value type and the parse are abstracted. -/
def parse_id (parse : β → Option ι) (b : β) : Option ι :=
  parse b

/-- `Collection::insert_many_with_options`
(`manor_common/src/collection.rs:418`): on store success, collect with
`filter_map(parse_id)` over the reported `inserted_ids` values; on store
failure, wrap the store's own error as `MongoError`. -/
def insert_many_with_options (parse : β → Option ι)
    (storeResult : Except String (List β)) : Except Error (List ι) :=
  match storeResult with
  | .ok ids => .ok (ids.filterMap (parse_id parse))
  | .error e => .error (.MongoError e)

/-- `Collection::insert_one_with_options`
(`manor_common/src/collection.rs:432`): on store success, `parse_id` on
the reported `inserted_id`; on store failure, wrap the store's own error
as `MongoError`. -/
def insert_one_with_options (parse : β → Option ι)
    (storeResult : Except String β) : Except Error (Option ι) :=
  match storeResult with
  | .ok b => .ok (parse_id parse b)
  | .error e => .error (.MongoError e)

/-- Which branch of `replace_or_insert_one` performed the write. -/
inductive WritePath where
  | replaced
  | inserted
deriving DecidableEq

/-- `Collection::replace_or_insert_one`
(`manor_common/src/collection.rs:483`): probe with `find_one`; only on
`Ok(Some(_))` take the replace branch (serialize the document, strip
`_id`, raw `replace_one`, then return the document's own id); on
`Ok(None)` or on a probe error (`if let Ok(Some(_))` fails) take the
insert branch — `insert_one(document)?` then return the document's own
id. The async sub-steps are embedded as their outcomes. -/
def replace_or_insert_one (probe : Except String (Option (Rec φ ι)))
    (serializeOk : Bool) (rawReplace : Except String Unit)
    (insertOne : Except Error (Option ι)) (document : Rec φ ι) :
    Except Error (Option ι) × WritePath :=
  match probe with
  | .ok (some _) =>
    if serializeOk then
      match rawReplace with
      | .ok _ => (.ok (some document.id), .replaced)
      | .error e => (.error (.MongoError e), .replaced)
    else
      (.error (.Serialization "to_document failed"), .replaced)
  | _ =>
    match insertOne with
    | .ok _ => (.ok (some document.id), .inserted)
    | .error e => (.error e, .inserted)

end Collection

/-- One declared non-identity field of a `#[schema]` template: its name
and the optional `#[field(alias = ...)]` attribute
(`manor_macros/src/schema.rs`, `FieldArgs`). -/
structure FieldSpec where
  name : String
  aliasAttr : Option String
deriving DecidableEq

/-- The field layout of a generated schema: the identity field's declared
name and the non-identity declared fields in order
(`manor_macros/src/schema.rs`, `generate_schema`). -/
structure SchemaSpec where
  idFieldName : String
  fields : List FieldSpec
deriving DecidableEq

/-- A value of a generated record type: the identity value, the values of
the non-identity declared fields (in `SchemaSpec.fields` order), and the
hidden `_collection` back-reference. -/
structure GenRecord (ι ν : Type) where
  idVal : ι
  fieldVals : List ν
  «_collection» : Option Collection
deriving DecidableEq

/-- A wire document: an ordered list of key/value pairs; values are either
the identity type or a declared-field value. -/
abbrev WireDoc (ι ν : Type) := List (String × (ι ⊕ ν))

/-- First value stored under a key in a wire document. -/
def lookupKey (doc : WireDoc ι ν) (k : String) : Option (ι ⊕ ν) :=
  (doc.find? fun p => p.1 = k).map Prod.snd

/-- Serialization of a generated record, as emitted by `generate_schema`
(`manor_macros/src/schema.rs:82` and `:120`): the identity field is
renamed to `"_id"` (`#[serde(rename = "_id")]`); every non-identity
declared field is pushed through unchanged — in particular the parsed
`#[field(alias = ...)]` argument is never applied, so the wire key is the
declared field name; the `_collection` field is `#[serde(skip)]` and
never emitted. -/
def serializeGen {ι ν : Type} (spec : SchemaSpec) (r : GenRecord ι ν) :
    WireDoc ι ν :=
  ("_id", .inl r.idVal) :: (spec.fields.zip r.fieldVals).map fun p => (p.1.name, .inr p.2)

/-- Deserialization into a generated record, per the serde attributes
emitted by `generate_schema`: the identity comes from `"_id"` and defaults
to the generated id when the key is absent; every non-identity field is
read under its declared name (the alias is not applied); `_collection` is
`#[serde(skip, default)]`, hence `none` after any deserialization. -/
def deserializeGen {ι ν : Type} (spec : SchemaSpec) (genId : ι)
    (doc : WireDoc ι ν) : Option (GenRecord ι ν) :=
  let idv : Option ι :=
    match lookupKey doc "_id" with
    | some (.inl i) => some i
    | some (.inr _) => none
    | none => some genId
  let vals : Option (List ν) :=
    spec.fields.mapM fun f =>
      match lookupKey doc f.name with
      | some (.inr v) => some v
      | _ => none
  match idv, vals with
  | some i, some vs => some { idVal := i, fieldVals := vs, _collection := none }
  | _, _ => none

/-- Word-delimiter characters of the default `convert_case` boundaries. -/
def isDelim (c : Char) : Bool :=
  c = '_' || c = '-' || c = ' '

/-- Modelled from the behaviour of the external `convert_case` crate:
word splitting with the default boundaries used by
`to_case(Case::Snake)` on alphabetic identifiers — delimiters split and
are dropped, a lower-to-upper transition splits, and an uppercase run
followed by a lowercase letter splits before its last capital (acronym
boundary). The first argument accumulates the current word, reversed. -/
def snakeWords : List Char → List Char → List (List Char)
  | cur, [] => if cur.isEmpty then [] else [cur.reverse]
  | cur, c :: rest =>
    if isDelim c then
      if cur.isEmpty then snakeWords [] rest else cur.reverse :: snakeWords [] rest
    else if c.isUpper then
      match cur with
      | [] => snakeWords [c] rest
      | p :: _ =>
        if p.isLower then cur.reverse :: snakeWords [c] rest
        else
          match rest with
          | r :: _ =>
            if r.isLower then cur.reverse :: snakeWords [c] rest
            else snakeWords (c :: cur) rest
          | [] => snakeWords (c :: cur) rest
    else snakeWords (c :: cur) rest

/-- Modelled from the external `convert_case` crate:
`s.to_case(Case::Snake)` — split into words, lowercase them, join with
underscores. -/
def toSnake (s : String) : String :=
  String.intercalate "_" ((snakeWords [] s.data).map fun w => String.mk (w.map Char.toLower))

/-- The collection name computed by `generate_schema`
(`manor_macros/src/schema.rs:47`): `args.collection` (the explicit
override) if supplied, else the schema name — and the chosen string is
then converted with `.to_case(Case::Snake)` in either case. The emitted
`collection_name()` returns this string (`manor_macros/src/schema.rs:155`). -/
def collection_name (override : Option String) (schemaName : String) : String :=
  toSnake (override.getD schemaName)

/-! Helper lemmas about the store model. -/

theorem storeFindById_append_self [DecidableEq ι] (s : Store φ ι) (i : ι) (f : φ)
    (h : storeFindById s i = none) :
    storeFindById (s ++ [(i, f)]) i = some f := by
  induction s with
  | nil => simp [storeFindById]
  | cons p rest ih =>
    by_cases hp : p.1 = i
    · simp [storeFindById, hp] at h
    · simp only [storeFindById, hp, if_false] at h
      simp only [List.cons_append, storeFindById, hp, if_false]
      exact ih h

theorem storeDeleteOneById_append_self [DecidableEq ι] (s : Store φ ι) (i : ι) (f : φ)
    (h : storeFindById s i = none) :
    storeDeleteOneById (s ++ [(i, f)]) i = (s, 1) := by
  induction s with
  | nil => simp [storeDeleteOneById]
  | cons p rest ih =>
    by_cases hp : p.1 = i
    · simp [storeFindById, hp] at h
    · simp only [storeFindById, hp, if_false] at h
      simp only [List.cons_append, storeDeleteOneById, hp, if_false]
      exact congrArg (fun q => (p :: q.1, q.2)) (ih h)

/-! Claim theorems. -/

/-- Claim C1, counterexample: after inserting the record
`{id: 1, name: "users"}` into an empty store, `get(1)` returns the
record, but its `own_collection` is `none` — not the issuing typed
collection `{name := "users", client := {conn := 0, database := "db"}}`
as the claim states: the `find_one` path of `Collection::find` passes
the driver's result through without attaching the back-reference. -/
theorem c1_get_does_not_attach_backref :
    Collection.get (storeInsert ([] : Store String Nat) ⟨1, "users", none⟩) 1
      = .ok (some ⟨1, "users", none⟩)
    ∧ Rec.own_collection (⟨1, "users", none⟩ : Rec String Nat) = none
    ∧ Rec.own_collection (⟨1, "users", none⟩ : Rec String Nat)
      ≠ some ⟨"users", ⟨0, "db"⟩⟩ :=
  ⟨rfl, rfl, by decide⟩

/-- Claim C1, amended: after inserting a record whose identity is not yet
in the store, `get(id)` returns `Some` of a record equal to the inserted
one in identity and declared fields but with the back-reference absent
(`own_collection` is `none`) until explicitly attached, e.g. with `wrap`;
and after `delete(record)`, `get(id)` returns `None`. -/
theorem c1_insert_get_delete_amended [DecidableEq ι] (s : Store φ ι) (r : Rec φ ι)
    (h : storeFindById s r.id = none) (col : Collection) :
    Collection.get (storeInsert s r) r.id
      = .ok (some { id := r.id, fields := r.fields, _collection := none })
    ∧ (Collection.wrap col
        { id := r.id, fields := r.fields, _collection := (none : Option Collection) }).own_collection
      = some col
    ∧ (Collection.deleteDoc (storeInsert s r) r).1 = .ok ()
    ∧ Collection.get (Collection.deleteDoc (storeInsert s r) r).2 r.id = .ok none := by
  refine ⟨?_, rfl, ?_, ?_⟩
  · simp [Collection.get, Collection.find_one, storeInsert,
      storeFindById_append_self s r.id r.fields h]
  · simp [Collection.deleteDoc, storeInsert,
      storeDeleteOneById_append_self s r.id r.fields h, Collection.delete_one]
  · simp [Collection.deleteDoc, storeInsert,
      storeDeleteOneById_append_self s r.id r.fields h,
      Collection.get, Collection.find_one, h]

/-- Witness for C1's amended theorem at a concrete input. -/
theorem c1_insert_get_delete_witness :
    Collection.get (storeInsert ([] : Store String Nat) ⟨1, "users", none⟩) 1
      = .ok (some ⟨1, "users", none⟩)
    ∧ (Collection.wrap ⟨"users", ⟨0, "db"⟩⟩
        (⟨1, "users", none⟩ : Rec String Nat)).own_collection = some ⟨"users", ⟨0, "db"⟩⟩
    ∧ (Collection.deleteDoc (storeInsert ([] : Store String Nat) ⟨1, "users", none⟩)
        ⟨1, "users", none⟩).1 = .ok ()
    ∧ Collection.get
        (Collection.deleteDoc (storeInsert ([] : Store String Nat) ⟨1, "users", none⟩)
          ⟨1, "users", none⟩).2 1 = .ok none :=
  c1_insert_get_delete_amended [] ⟨1, "users", none⟩ rfl ⟨"users", ⟨0, "db"⟩⟩

/-- Claim C2, counterexample: on a reported delete count of 2,
`delete_one` returns the `NotFound` error — the very error the claim says
is reserved for count 0 — instead of a distinguishable defensive
integrity error: the source collapses every non-1 count into
`Err(Error::NotFound)`. -/
theorem c2_count_two_maps_to_not_found :
    Collection.delete_one (.ok 2) = .error Error.NotFound :=
  rfl

/-- Claim C2, amended: `delete_one` returns `Ok(())` exactly when the
store reports a delete count of 1, returns the `NotFound` error for every
other reported count (0 as well as any count greater than 1 — there is no
integrity error distinct from `NotFound`), and propagates store errors
unchanged. -/
theorem c2_delete_one_count_mapping :
    Collection.delete_one (.ok 1) = .ok ()
    ∧ (∀ n : Nat, n ≠ 1 → Collection.delete_one (.ok n) = .error Error.NotFound)
    ∧ (∀ e : Error, Collection.delete_one (.error e) = .error e) := by
  refine ⟨rfl, ?_, fun e => rfl⟩
  intro n hn
  match n with
  | 0 => rfl
  | 1 => exact absurd rfl hn
  | (k + 2) => rfl

/-- Witness for C2's amended theorem at the concrete counts 0 and 2. -/
theorem c2_delete_one_count_mapping_witness :
    Collection.delete_one (.ok 0) = .error Error.NotFound
    ∧ Collection.delete_one (.ok 2) = .error Error.NotFound :=
  ⟨c2_delete_one_count_mapping.2.1 0 (by decide),
   c2_delete_one_count_mapping.2.1 2 (by decide)⟩

/-- Claim C3: when the cache is populated, `resolve` returns the cached
value with zero store queries and two consecutive `resolve` calls perform
zero (hence at most one) queries; a `resolve` that fails with `NotFound`
implies the cache was and remains empty; and from the unresolved state a
successful `resolve` followed by another performs exactly one query. -/
theorem c3_resolve_cached_idempotent (store : StoreOracle φ ι) (l : Link φ ι) :
    (∀ v, l.resolved = some v →
      Link.resolve store l = (.ok v, l, 0) ∧ Link.resolveTwiceQueries store l = 0)
    ∧ ((Link.resolve store l).1 = .error Error.NotFound →
      l.resolved = none ∧ (Link.resolve store l).2.1.resolved = none)
    ∧ (∀ r, l.resolved = none → store l.id = .ok (some r) →
      Link.resolveTwiceQueries store l = 1) := by
  refine ⟨?_, ?_, ?_⟩
  · intro v hv
    constructor
    · simp [Link.resolve, hv]
    · simp [Link.resolveTwiceQueries, Link.resolve, hv]
  · intro h
    cases hres : l.resolved with
    | some v => simp [Link.resolve, hres] at h
    | none =>
      refine ⟨rfl, ?_⟩
      cases hstore : store l.id with
      | error e => simp [Link.resolve, hres, hstore] at h
      | ok o =>
        cases o with
        | some found => simp [Link.resolve, hres, hstore] at h
        | none => simp [Link.resolve, hres, hstore]
  · intro r hres hstore
    simp [Link.resolveTwiceQueries, Link.resolve, hres, hstore]

/-- Witness for C3 at concrete inputs: a pre-resolved link resolves from
its cache with zero queries. -/
theorem c3_resolve_cached_idempotent_witness :
    Link.resolve (fun _ => .ok none)
        (⟨"users", (1 : Nat), some ⟨1, "users", none⟩, none⟩ : Link String Nat)
      = (.ok ⟨1, "users", none⟩, ⟨"users", 1, some ⟨1, "users", none⟩, none⟩, 0)
    ∧ Link.resolveTwiceQueries (fun _ => .ok none)
        (⟨"users", (1 : Nat), some ⟨1, "users", none⟩, none⟩ : Link String Nat) = 0 :=
  (c3_resolve_cached_idempotent (fun _ => .ok none)
    ⟨"users", 1, some ⟨1, "users", none⟩, none⟩).1 ⟨1, "users", none⟩ rfl

/-- Claim C4: `refresh` performs exactly one store query regardless of the
link's current state; on a found document it overwrites the cache with the
fetched value and returns it; on a missing document it returns the
`NotFound` error and leaves the link — in particular the previously cached
value observed through `value` — unchanged. -/
theorem c4_refresh_always_queries (store : StoreOracle φ ι) (l : Link φ ι) :
    (Link.refresh store l).2.2 = 1
    ∧ (∀ r, store l.id = .ok (some r) →
      Link.refresh store l = (.ok r, { l with resolved := some r }, 1))
    ∧ (store l.id = .ok none →
      Link.refresh store l = (.error Error.NotFound, l, 1)
      ∧ (Link.refresh store l).2.1.value = l.value) := by
  refine ⟨?_, ?_, ?_⟩
  · cases hstore : store l.id with
    | error e => simp [Link.refresh, hstore]
    | ok o => cases o <;> simp [Link.refresh, hstore]
  · intro r h
    simp [Link.refresh, h]
  · intro h
    exact ⟨by simp [Link.refresh, h], by simp [Link.refresh, h, Link.value]⟩

/-- Witness for C4 at a concrete input: refreshing a resolved link whose
target has disappeared yields `NotFound` and keeps the stale cache. -/
theorem c4_refresh_always_queries_witness :
    Link.refresh (fun _ => .ok none)
        (⟨"users", (1 : Nat), some ⟨1, "users", none⟩, none⟩ : Link String Nat)
      = (.error Error.NotFound, ⟨"users", 1, some ⟨1, "users", none⟩, none⟩, 1)
    ∧ (Link.refresh (fun _ => .ok none)
        (⟨"users", (1 : Nat), some ⟨1, "users", none⟩, none⟩ : Link String Nat)).2.1.value
      = Link.value (⟨"users", 1, some ⟨1, "users", none⟩, none⟩ : Link String Nat) :=
  (c4_refresh_always_queries (fun _ => .ok none)
    ⟨"users", 1, some ⟨1, "users", none⟩, none⟩).2.2 rfl

/-- Claim C5: a record pulled through a cursor is yielded with the issuing
collection attached as its back-reference before being exposed; an
underlying error is yielded as an item while the stream continues (a
subsequent pull still yields the next record); underlying exhaustion
terminates the stream. -/
theorem c5_cursor_tagging_and_errors (col : Collection) (r : Rec φ ι) (e : String)
    (rest : List (Except String (Rec φ ι))) :
    Cursor.poll_next (col.cursor (.ok r :: rest))
      = (some (.ok (r.attach_collection col)), col.cursor rest)
    ∧ (r.attach_collection col).own_collection = some col
    ∧ Cursor.poll_next (col.cursor (.error e :: rest))
      = (some (.error (.MongoError e)), col.cursor rest)
    ∧ Cursor.poll_next (Cursor.poll_next (col.cursor (.error e :: .ok r :: rest))).2
      = (some (.ok (r.attach_collection col)), col.cursor rest)
    ∧ Cursor.poll_next (col.cursor ([] : List (Except String (Rec φ ι))))
      = (none, col.cursor []) :=
  ⟨rfl, rfl, rfl, rfl, rfl⟩

/-- Claim C6, code-bug evidence: for the template field `name` declared
with `#[field(alias = "username")]` (and a second field `password`), the
generated serializer puts the identity under `"_id"` and the aliased
field under its declared name `"name"` — no `"username"` key is ever
emitted, because `generate_schema` parses the alias argument and then
pushes the field through unchanged; serialize-then-deserialize restores
the identity and all declared field values while the back-reference is
not serialized and is `none` after deserialization. -/
theorem c6_alias_ignored_on_wire :
    serializeGen ⟨"id", [⟨"name", some "username"⟩, ⟨"password", none⟩]⟩
        (⟨7, ["alice", "pw"], some ⟨"users", ⟨0, "db"⟩⟩⟩ : GenRecord Nat String)
      = [("_id", .inl 7), ("name", .inr "alice"), ("password", .inr "pw")]
    ∧ lookupKey (serializeGen ⟨"id", [⟨"name", some "username"⟩, ⟨"password", none⟩]⟩
        (⟨7, ["alice", "pw"], some ⟨"users", ⟨0, "db"⟩⟩⟩ : GenRecord Nat String)) "username"
      = none
    ∧ lookupKey (serializeGen ⟨"id", [⟨"name", some "username"⟩, ⟨"password", none⟩]⟩
        (⟨7, ["alice", "pw"], some ⟨"users", ⟨0, "db"⟩⟩⟩ : GenRecord Nat String)) "name"
      = some (.inr "alice")
    ∧ deserializeGen ⟨"id", [⟨"name", some "username"⟩, ⟨"password", none⟩]⟩ 99
        (serializeGen ⟨"id", [⟨"name", some "username"⟩, ⟨"password", none⟩]⟩
          (⟨7, ["alice", "pw"], some ⟨"users", ⟨0, "db"⟩⟩⟩ : GenRecord Nat String))
      = some ⟨7, ["alice", "pw"], none⟩ := by
  refine ⟨rfl, by decide, by decide, by decide⟩

/-- Claim C7: when every reported inserted id parses as the model's id
type, `insert_many` returns the identities of all inserted documents (in
the reported order) and `insert_one` returns the store-generated
identity; a store failure is surfaced as `MongoError` wrapping the
store's own error value, never silently dropped. -/
theorem c7_insert_returns_ids (parse : β → Option ι) (f : β → ι) (ids : List β)
    (b : β) (i : ι) (e : String) :
    ((∀ x ∈ ids, parse x = some (f x)) →
      Collection.insert_many_with_options parse (.ok ids) = .ok (ids.map f))
    ∧ (parse b = some i →
      Collection.insert_one_with_options parse (.ok b) = .ok (some i))
    ∧ Collection.insert_many_with_options parse (.error e) = .error (.MongoError e)
    ∧ Collection.insert_one_with_options parse (.error e) = .error (.MongoError e) := by
  refine ⟨?_, ?_, rfl, rfl⟩
  · intro h
    simp only [Collection.insert_many_with_options, Collection.parse_id, Except.ok.injEq]
    induction ids with
    | nil => rfl
    | cons x xs ih =>
      have hx : parse x = some (f x) := h x (List.mem_cons_self x xs)
      simp only [List.filterMap_cons, Collection.parse_id, hx, List.map_cons,
        List.cons.injEq, true_and]
      exact ih fun y hy => h y (List.mem_cons_of_mem x hy)
  · intro h
    simp [Collection.insert_one_with_options, Collection.parse_id, h]

/-- Witness for C7 at concrete inputs. -/
theorem c7_insert_returns_ids_witness :
    Collection.insert_many_with_options (fun n : Nat => some n) (.ok [1, 2]) = .ok [1, 2]
    ∧ Collection.insert_one_with_options (fun n : Nat => some n) (.ok 3) = .ok (some 3) :=
  ⟨(c7_insert_returns_ids (fun n => some n) (fun n => n) [1, 2] 3 3 "dup").1
      (fun _ _ => rfl),
   (c7_insert_returns_ids (fun n => some n) (fun n => n) [1, 2] 3 3 "dup").2.1 rfl⟩

/-- Claim C8, counterexample: with the explicit collection override
`"MyUsers"`, the generated `collection_name()` is `"my_users"`, not the
override itself — `generate_schema` applies `to_case(Case::Snake)` to the
override as well. -/
theorem c8_override_is_case_folded :
    collection_name (some "MyUsers") "Session" = "my_users"
    ∧ "my_users" ≠ "MyUsers" :=
  ⟨rfl, by decide⟩

/-- Claim C8, amended: `collection_name()` equals the snake_case
conversion of the explicit collection override when one is supplied (so
an override already in snake_case is used verbatim), and otherwise equals
the snake_case conversion of the schema (type) name. -/
theorem c8_collection_name_amended (o n : String) :
    collection_name (some o) n = toSnake o
    ∧ collection_name none n = toSnake n
    ∧ collection_name none "UserAccount" = "user_account"
    ∧ collection_name (some "users") "Session" = "users"
    ∧ collection_name (some "MyUsers") "Session" = "my_users" :=
  ⟨rfl, rfl, rfl, rfl, rfl⟩

/-- Claim C9: the process-wide client cell is single-assignment — the
first `as_global` publishes the client, `global` thereafter returns it,
and a second `as_global` panics (the fatal outcome) while the cell keeps
the originally published value. -/
theorem c9_global_client_once (c c' : Client) :
    Client.as_global c none = (.published, some c)
    ∧ Client.global (Client.as_global c none).2 = some c
    ∧ Client.as_global c' (Client.as_global c none).2 = (.panicked, some c)
    ∧ (Client.as_global c' (Client.as_global c none).2).2 = some c :=
  ⟨rfl, rfl, rfl, rfl⟩

/-- Claim C10: when the existence probe of `replace_or_insert_one` fails
with a store error, the error is not propagated: the insert branch is
taken, and on insert success the document's own identity is returned; an
insert failure surfaces the insert's error. -/
theorem c10_probe_error_goes_to_insert (e : String) (serializeOk : Bool)
    (rawReplace : Except String Unit) (x : Option ι) (e2 : Error)
    (document : Rec φ ι) :
    Collection.replace_or_insert_one (.error e) serializeOk rawReplace (.ok x) document
      = (.ok (some document.id), .inserted)
    ∧ Collection.replace_or_insert_one (.error e) serializeOk rawReplace (.error e2) document
      = (.error e2, .inserted) :=
  ⟨rfl, rfl⟩

end Manor
